import Mathlib

/-!
Verification of `Source/cmQtAutoRcc.cxx` (CMake's AUTORCC single-artifact
incremental regeneration engine).

The C++ code is embedded shallowly: every interaction with the outside world
(file existence tests, timestamp loads, file reads/writes/touches, the lock,
the external `rcc` process and the resource lister) is mediated by an explicit
environment record `Env` of oracles, and each member function of `cmQtAutoRcc`
becomes a pure Lean function from the environment and the mutable member state
`St` to a result, threading the state and an ordered trace of filesystem /
process effects `Eff`.  Member variables that the functions mutate
(`SettingsString_`, `SettingsChanged_`, `BuildFileChanged_`, the lock, the
resolved `Inputs_` list and the loaded file times) live in `St`.
-/

namespace CmQtAutoRcc

/-- Ordered trace of externally visible effects performed by a run. -/
inductive Eff where
  /-- `cmSystemTools::Touch(SettingsFile_, true)` — create the settings file. -/
  | touchSettings : Eff
  /-- `cmSystemTools::Touch(LockFile_, true)` — create the lock file. -/
  | touchLock : Eff
  /-- successful `LockFileLock_.Lock(LockFile_, ...)`. -/
  | lockAcquire : Eff
  /-- `LockFileLock_.Release()`. -/
  | lockRelease : Eff
  /-- `FileWrite(SettingsFile_, "")` — truncate the settings file to empty. -/
  | clearSettings : Eff
  /-- `FileWrite(SettingsFile_, content)` with the given content. -/
  | writeSettings : String → Eff
  /-- `cmSystemTools::RemoveFile(SettingsFile_)`. -/
  | removeSettings : Eff
  /-- invocation of the external resource lister (`RccLister::list`). -/
  | invokeLister : Eff
  /-- `MakeParentDirectory(RccFileOutput_)`. -/
  | mkdir : Eff
  /-- invocation of the rcc generator process (`RunSingleCommand`). -/
  | runRcc : Eff
  /-- captured stdout+stderr surfaced through `Log().ErrorCommand`. -/
  | errorOut : String → Eff
  /-- `cmSystemTools::RemoveFile(RccFileOutput_)`. -/
  | removeOutput : Eff
  /-- `cmSystemTools::Touch(RccFileOutput_, false)` — bump output mtime. -/
  | touchOutput : Eff
  /-- `FileWrite(RccFilePublic_, content)` — write the wrapper file. -/
  | writeWrapper : String → Eff
  /-- `cmSystemTools::Touch(RccFilePublic_, false)` — bump wrapper mtime. -/
  | touchWrapper : Eff
deriving DecidableEq, Repr

/-- The configuration members of `cmQtAutoRcc` established by `Init`
(they are never mutated by `Process`). -/
structure Cfg where
  RccExecutable_ : String
  RccListOptions_ : List String
  QrcFile_ : String
  RccPathChecksum_ : String
  RccFileName_ : String
  Options_ : List String
  /-- the explicit dependent-input list read from the info file. -/
  InitialInputs_ : List String
  MultiConfig_ : Bool
  AutogenBuildDir_ : String
  IncludeDir_ : String
  LockFile_ : String
  SettingsFile_ : String
deriving DecidableEq, Repr

/-- Environment oracles: outcomes of every filesystem and process interaction
a run can perform.  File times are `Option Nat` (`none` = `Load` fails /
file absent), matching `cmFileTime::Load`. -/
structure Env where
  /-- `cmCryptoHash(AlgoSHA256).HashString` — abstract hash function. -/
  hash : String → String
  /-- `cmSystemTools::FileExists(SettingsFile_, true)`. -/
  settingsFileExists : Bool
  /-- outcome of `cmSystemTools::Touch(SettingsFile_, true)`. -/
  settingsTouchOk : Bool
  /-- `cmSystemTools::FileExists(LockFile_, true)`. -/
  lockFileExists : Bool
  /-- outcome of `cmSystemTools::Touch(LockFile_, true)`. -/
  lockTouchOk : Bool
  /-- `lockResult.IsOk()` for `LockFileLock_.Lock`. -/
  lockOk : Bool
  /-- outcome of `FileRead(content, SettingsFile_)`. -/
  settingsReadOk : Bool
  /-- the content delivered by a successful settings-file read. -/
  settingsContent : String
  /-- outcome of `FileWrite(SettingsFile_, "")` (the truncation). -/
  settingsClearOk : Bool
  /-- outcome of `FileWrite(SettingsFile_, content)` (the final write-back). -/
  settingsWriteOk : Bool
  /-- `QrcFileTime_.Load(QrcFile_)` result. -/
  qrcTime : Option Nat
  /-- `RccFileTime_.Load(RccFileOutput_)` result. -/
  rccTime : Option Nat
  /-- `RccExecutableTime_`, loaded successfully during `Init`. -/
  exeTime : Nat
  /-- `InfoFileTime()`, loaded by the generator driver before `Process`. -/
  infoTime : Nat
  /-- whether `RccLister::list` succeeds. -/
  listerOk : Bool
  /-- the dependent-input list produced by a successful lister run. -/
  listerInputs : List String
  /-- `cmFileTime::Load` on a dependent resource file. -/
  inputTime : String → Option Nat
  /-- outcome of `MakeParentDirectory(RccFileOutput_)`. -/
  mkdirOk : Bool
  /-- whether `RunSingleCommand` managed to launch the rcc process. -/
  rccLaunchOk : Bool
  /-- the rcc process exit code. -/
  rccRetVal : Int
  rccStdOut : String
  rccStdErr : String
  /-- outcome of `cmSystemTools::Touch(RccFileOutput_, false)`. -/
  touchOutputOk : Bool
  /-- `FileRead(oldContents, RccFilePublic_)` result (`none` = read failed). -/
  wrapperOld : Option String
  /-- outcome of `FileWrite(RccFilePublic_, content)`. -/
  wrapperWriteOk : Bool
  /-- outcome of `cmSystemTools::Touch(RccFilePublic_, false)`. -/
  wrapperTouchOk : Bool

/-- The member state mutated during `Process`. -/
structure St where
  SettingsString_ : String
  SettingsChanged_ : Bool
  BuildFileChanged_ : Bool
  /-- whether `LockFileLock_` currently holds the lock. -/
  lockHeld : Bool
  Inputs_ : List String
  QrcFileTime_ : Option Nat
  RccFileTime_ : Option Nat
deriving DecidableEq, Repr

/-- Initial member state at entry of `Process` (the `bool ... = false` default
member initializers of the class, plus the `Inputs_` list set by `Init`). -/
def initSt (cfg : Cfg) : St :=
  { SettingsString_ := ""
    SettingsChanged_ := false
    BuildFileChanged_ := false
    lockHeld := false
    Inputs_ := cfg.InitialInputs_
    QrcFileTime_ := none
    RccFileTime_ := none }

/-- Result of one stage (or of the whole run). -/
structure Step where
  ok : Bool
  st : St
  tr : List Eff
deriving DecidableEq, Repr

/-- `cmQtAutoRcc::MultiConfigOutput`:
`RccPathChecksum_ + "/" + AppendFilenameSuffix(RccFileName_, "_CMAKE_")`.
`AppendFilenameSuffix` lives in `cmQtAutoGen.cxx`; per the spec it
disambiguates the output name with the `_CMAKE_` suffix, inserted before the
file-name extension (before the last dot; appended when there is no dot). -/
def AppendFilenameSuffix (filename suffix : String) : String :=
  let rev := filename.data.reverse
  if rev.contains '.' then
    let ext := (rev.takeWhile (· ≠ '.')).reverse
    let stem := ((rev.dropWhile (· ≠ '.')).drop 1).reverse
    String.mk (stem ++ suffix.data ++ '.' :: ext)
  else filename ++ suffix

def MultiConfigOutput (cfg : Cfg) : String :=
  cfg.RccPathChecksum_ ++ "/" ++ AppendFilenameSuffix cfg.RccFileName_ "_CMAKE_"

/-- `RccFilePublic_` as computed in `Init`. -/
def RccFilePublic (cfg : Cfg) : String :=
  cfg.AutogenBuildDir_ ++ "/" ++ cfg.RccPathChecksum_ ++ "/" ++ cfg.RccFileName_

/-- `RccFileOutput_` as computed in `Init`. -/
def RccFileOutput (cfg : Cfg) : String :=
  if cfg.MultiConfig_ then cfg.IncludeDir_ ++ "/" ++ MultiConfigOutput cfg
  else RccFilePublic cfg

/-- `cmJoin(list, ";")` — join a string list with a `";"` separator. -/
def joinSemi : List String → String
  | [] => ""
  | [x] => x
  | x :: y :: xs => x ++ ";" ++ joinSemi (y :: xs)

/-- The string hashed in `SettingsFileRead` (the `cmStrCat` at its top). -/
def settingsHashInput (cfg : Cfg) : String :=
  let sep := " ~~~ "
  cfg.RccExecutable_ ++ sep ++ joinSemi cfg.RccListOptions_ ++ sep ++
    cfg.QrcFile_ ++ sep ++ cfg.RccPathChecksum_ ++ sep ++ cfg.RccFileName_ ++ sep ++
    joinSemi cfg.Options_ ++ sep ++ joinSemi cfg.InitialInputs_ ++ sep

/-- `SettingsString_` computed at the top of `SettingsFileRead`. -/
def settingsStringOf (cfg : Cfg) (env : Env) : String :=
  env.hash (settingsHashInput cfg)

/-- Modelled from the spec: `cmQtAutoGenerator::SettingsFind` is not under
`Source/`; the spec describes the record format as the single line
`"<generator-id>:<digest>\n"`, the stored digest being extracted by key
lookup of the `"rcc"` token; an absent or malformed record yields the empty
string (and hence compares as changed). -/
def SettingsFind (content key : String) : String :=
  let pfx := (key ++ ":").data
  if pfx.isPrefixOf content.data then
    String.mk ((content.data.drop pfx.length).takeWhile (· ≠ '\n'))
  else ""

/-- `cmQtAutoRcc::SettingsFileRead`: compute the digest, ensure the settings
and lock files exist (touching them into existence when absent, fatal on
touch failure), take the lock, read the old record, set `SettingsChanged_`,
and truncate the settings file when the digest differs. -/
def SettingsFileRead (cfg : Cfg) (env : Env) (s : St) : Step :=
  let s0 := { s with SettingsString_ := settingsStringOf cfg env }
  let tr1 : List Eff := if env.settingsFileExists then [] else [Eff.touchSettings]
  if env.settingsFileExists = false ∧ env.settingsTouchOk = false then
    ⟨false, s0, tr1⟩
  else
    let tr2 : List Eff := if env.lockFileExists then [] else [Eff.touchLock]
    if env.lockFileExists = false ∧ env.lockTouchOk = false then
      ⟨false, s0, tr1 ++ tr2⟩
    else if env.lockOk = false then ⟨false, s0, tr1 ++ tr2⟩
    else
      let s1 := { s0 with lockHeld := true }
      let tr := tr1 ++ tr2 ++ [Eff.lockAcquire]
      if env.settingsReadOk then
        if settingsStringOf cfg env ≠ SettingsFind env.settingsContent "rcc" then
          let s2 := { s1 with SettingsChanged_ := true }
          if env.settingsClearOk then ⟨true, s2, tr ++ [Eff.clearSettings]⟩
          else ⟨false, s2, tr ++ [Eff.clearSettings]⟩
        else ⟨true, { s1 with SettingsChanged_ := false }, tr⟩
      else ⟨true, { s1 with SettingsChanged_ := true }, tr⟩

/-- `cmQtAutoRcc::SettingsFileWrite`: when `SettingsChanged_`, write the new
record `"rcc:" ++ SettingsString_ ++ "\n"`; on write failure remove the
settings file and return `false` (note: without reaching the final
`LockFileLock_.Release()`).  Otherwise release the lock and return `true`. -/
def SettingsFileWrite (env : Env) (s : St) : Step :=
  if s.SettingsChanged_ then
    if env.settingsWriteOk then
      ⟨true, { s with lockHeld := false },
        [Eff.writeSettings ("rcc:" ++ s.SettingsString_ ++ "\n"), Eff.lockRelease]⟩
    else
      ⟨false, s,
        [Eff.writeSettings ("rcc:" ++ s.SettingsString_ ++ "\n"), Eff.removeSettings]⟩
  else ⟨true, { s with lockHeld := false }, [Eff.lockRelease]⟩

/-- `cmQtAutoRcc::TestQrcRccFiles(bool& generate)`: returns
`(ok, generate, state)`. -/
def TestQrcRccFiles (env : Env) (s : St) : Bool × Bool × St :=
  match env.qrcTime with
  | none => (false, false, s)
  | some qt =>
    let s1 := { s with QrcFileTime_ := some qt }
    match env.rccTime with
    | none => (true, true, s1)
    | some rt =>
      let s2 := { s1 with RccFileTime_ := some rt }
      if s2.SettingsChanged_ then (true, true, s2)
      else if rt < qt then (true, true, s2)
      else if rt < env.exeTime then (true, true, s2)
      else (true, false, s2)

/-- The scan loop of `TestResources`: for each resource file, a failed
timestamp load is fatal; the first resource strictly newer than the output
sets `generate` and stops the scan.  Returns `(ok, generate)`. -/
def scanResources (env : Env) (rt : Nat) : List String → Bool × Bool
  | [] => (true, false)
  | f :: rest =>
    match env.inputTime f with
    | none => (false, false)
    | some ft => if rt < ft then (true, true) else scanResources env rt rest

/-- `cmQtAutoRcc::TestResources(bool& generate)`: when `Inputs_` is empty,
resolve it by invoking the external lister (fatal on lister failure); then
scan the resolved list.  Returns `(ok, generate, state, trace)`. -/
def TestResources (env : Env) (s : St) : Bool × Bool × St × List Eff :=
  if s.Inputs_.isEmpty then
    if env.listerOk then
      match scanResources env (s.RccFileTime_.getD 0) env.listerInputs with
      | (false, _) =>
        (false, false, { s with Inputs_ := env.listerInputs }, [Eff.invokeLister])
      | (true, g) =>
        (true, g, { s with Inputs_ := env.listerInputs }, [Eff.invokeLister])
    else (false, false, s, [Eff.invokeLister])
  else
    match scanResources env (s.RccFileTime_.getD 0) s.Inputs_ with
    | (false, _) => (false, false, s, [])
    | (true, g) => (true, g, s, [])

/-- `cmQtAutoRcc::TestInfoFile`: when the output is strictly older than the
info file, touch the output (fatal on failure) and set `BuildFileChanged_`. -/
def TestInfoFile (env : Env) (s : St) : Bool × St × List Eff :=
  if s.RccFileTime_.getD 0 < env.infoTime then
    if env.touchOutputOk then
      (true, { s with BuildFileChanged_ := true }, [Eff.touchOutput])
    else (false, s, [Eff.touchOutput])
  else (true, s, [])

/-- The rcc command line composed by `GenerateRcc`. -/
def rccCommand (cfg : Cfg) : List String :=
  cfg.RccExecutable_ :: cfg.Options_ ++ ["-o", RccFileOutput cfg, cfg.QrcFile_]

/-- `cmQtAutoRcc::GenerateRcc`: make the parent directory, run the rcc
process once; on launch failure or non-zero exit, surface the captured
stdout+stderr and remove the output file; on success set
`BuildFileChanged_`. -/
def GenerateRcc (env : Env) (s : St) : Bool × St × List Eff :=
  if env.mkdirOk = false then (false, s, [Eff.mkdir])
  else if env.rccLaunchOk = false ∨ env.rccRetVal ≠ 0 then
    (false, s,
      [Eff.mkdir, Eff.runRcc, Eff.errorOut (env.rccStdOut ++ env.rccStdErr),
        Eff.removeOutput])
  else (true, { s with BuildFileChanged_ := true }, [Eff.mkdir, Eff.runRcc])

/-- The wrapper file content composed by `GenerateWrapper`. -/
def wrapperContent (cfg : Cfg) : String :=
  "// This is an autogenerated configuration wrapper file.\n" ++
    "// Changes will be overwritten.\n" ++
    "#include <" ++ MultiConfigOutput cfg ++ ">\n"

/-- `cmQtAutoRcc::GenerateWrapper`: only in multi-config mode, compare the
computed wrapper content with the existing file; write it when it differs,
touch it when identical but `BuildFileChanged_`. -/
def GenerateWrapper (cfg : Cfg) (env : Env) (s : St) : Bool × St × List Eff :=
  if cfg.MultiConfig_ then
    if (match env.wrapperOld with
        | some old => old != wrapperContent cfg
        | none => true) then
      if env.wrapperWriteOk then (true, s, [Eff.writeWrapper (wrapperContent cfg)])
      else (false, s, [Eff.writeWrapper (wrapperContent cfg)])
    else if s.BuildFileChanged_ then
      if env.wrapperTouchOk then (true, s, [Eff.touchWrapper])
      else (false, s, [Eff.touchWrapper])
    else (true, s, [])
  else (true, s, [])

/-- `cmQtAutoRcc::Process`: the full run, composed exactly as in the source
(`SettingsFileRead`; `TestQrcRccFiles`; `!generate && TestResources`;
`GenerateRcc` or `TestInfoFile`; `GenerateWrapper`; `SettingsFileWrite`). -/
def Process (cfg : Cfg) (env : Env) : Step :=
  match SettingsFileRead cfg env (initSt cfg) with
  | ⟨false, s1, tr1⟩ => ⟨false, s1, tr1⟩
  | ⟨true, s1, tr1⟩ =>
    match TestQrcRccFiles env s1 with
    | (false, _, s2) => ⟨false, s2, tr1⟩
    | (true, gen1, s2) =>
      match (if gen1 then (true, true, s2, ([] : List Eff))
             else TestResources env s2) with
      | (false, _, s3, tr3) => ⟨false, s3, tr1 ++ tr3⟩
      | (true, gen, s3, tr3) =>
        match (if gen then GenerateRcc env s3 else TestInfoFile env s3) with
        | (false, s4, tr4) => ⟨false, s4, tr1 ++ tr3 ++ tr4⟩
        | (true, s4, tr4) =>
          match GenerateWrapper cfg env s4 with
          | (false, s5, tr5) => ⟨false, s5, tr1 ++ tr3 ++ tr4 ++ tr5⟩
          | (true, s5, tr5) =>
            match SettingsFileWrite env s5 with
            | ⟨ok6, s6, tr6⟩ => ⟨ok6, s6, tr1 ++ tr3 ++ tr4 ++ tr5 ++ tr6⟩

/-- Modelled from the spec: `cmFileLock`'s destructor (in `cmFileLock.cxx`,
not part of `cmQtAutoRcc.cxx`) releases the lock when the `cmQtAutoRcc`
object is destroyed at the end of the run — the spec's "scope-guarded
resource: acquire on entry, guaranteed release via deterministic destruction
on every exit path".  `RunWithDtor` is `Process` followed by that destructor. -/
def RunWithDtor (cfg : Cfg) (env : Env) : Step :=
  if (Process cfg env).st.lockHeld then
    ⟨(Process cfg env).ok, { (Process cfg env).st with lockHeld := false },
      (Process cfg env).tr ++ [Eff.lockRelease]⟩
  else Process cfg env

/-- The member state right after `SettingsFileRead` inside `Process`. -/
def postReadSt (cfg : Cfg) (env : Env) : St :=
  (SettingsFileRead cfg env (initSt cfg)).st

/-! ## `Init` (setup / validity checks) -/

/-- The values `Init` reads from the info file (the `ARCC_*` definitions). -/
structure Info where
  multiConfig : Bool
  buildDir : String
  includeDir : String
  rccExecutable : String
  listOptions : List String
  lockFile : String
  qrcFile : String
  pathChecksum : String
  fileName : String
  options : List String
  inputs : List String
  settingsFile : String
deriving DecidableEq, Repr

/-- File I/O performed by `Init` itself. -/
inductive InitEff where
  /-- `makefile->ReadListFile(InfoFile())` — reading the info/manifest file. -/
  | readInfoFile : InitEff
  /-- `RccExecutableTime_.Load(RccExecutable_)` — a stat of the generator. -/
  | statExe : InitEff
deriving DecidableEq, Repr

/-- Environment oracles for `Init`. -/
structure InitEnv where
  /-- outcome of `makefile->ReadListFile(InfoFile())`. -/
  readListFileOk : Bool
  /-- `RccExecutableTime_.Load(RccExecutable_)` result. -/
  exeTime : Option Nat
deriving DecidableEq, Repr

/-- `cmQtAutoRcc::Init`: read the info file, check the build and include
directories, stat the rcc executable, then run the validity checks on the
lock file, settings file, build directory, executable, input and output
names, in the order of the source.  Returns success and the trace of file
I/O performed. -/
def Init (info : Info) (ienv : InitEnv) : Bool × List InitEff :=
  if ienv.readListFileOk = false then (false, [InitEff.readInfoFile])
  else if info.buildDir = "" then (false, [InitEff.readInfoFile])
  else if info.includeDir = "" then (false, [InitEff.readInfoFile])
  else
    match ienv.exeTime with
    | none => (false, [InitEff.readInfoFile, InitEff.statExe])
    | some _ =>
      let tr := [InitEff.readInfoFile, InitEff.statExe]
      if info.lockFile = "" then (false, tr)
      else if info.settingsFile = "" then (false, tr)
      else if info.buildDir = "" then (false, tr)
      else if info.rccExecutable = "" then (false, tr)
      else if info.qrcFile = "" then (false, tr)
      else if info.fileName = "" then (false, tr)
      else (true, tr)

/-! ## Spec-side staleness decision (for the refinement claim C2) -/

/-- Tri-state outcome of the staleness evaluation. -/
inductive Decision where
  | fatalError : Decision
  | rebuild : Decision
  | upToDate : Decision
deriving DecidableEq, Repr

/-- The code's staleness decision: `TestQrcRccFiles` then — only when it did
not already decide — `TestResources`, composed exactly as `Process` does
(`if (!generate && !TestResources(generate))`). -/
def codeDecision (env : Env) (s : St) : Decision :=
  match TestQrcRccFiles env s with
  | (false, _, _) => Decision.fatalError
  | (true, true, _) => Decision.rebuild
  | (true, false, s2) =>
    match TestResources env s2 with
    | (false, _, _, _) => Decision.fatalError
    | (true, g, _, _) => if g then Decision.rebuild else Decision.upToDate

/-- Spec-side rule 6 scan: "each dependent input in order is checked
(absent is fatal, output strictly older than it gives Rebuild and stops
scanning)". -/
def specScanDeps (ot : Nat) (depTime : String → Option Nat) :
    List String → Decision
  | [] => Decision.upToDate
  | f :: rest =>
    match depTime f with
    | none => Decision.fatalError
    | some ft =>
      if ot < ft then Decision.rebuild else specScanDeps ot depTime rest

/-- The staleness decision written from the words of the spec (§4.2) and of
claim C2: ordered, short-circuiting rules, first match wins — input absent is
fatal; output absent, settings changed, output older than input, output older
than the generator executable each give Rebuild; else the dependent list is
resolved (by the lister when not supplied, whose failure is fatal) and
scanned in order; else UpToDate. -/
def specEvaluate (input output : Option Nat) (generatorExe : Nat)
    (changed : Bool) (explicitDeps : List String) (listerOk : Bool)
    (listerDeps : List String) (depTime : String → Option Nat) : Decision :=
  match input with
  | none => Decision.fatalError
  | some it =>
    match output with
    | none => Decision.rebuild
    | some ot =>
      if changed then Decision.rebuild
      else if ot < it then Decision.rebuild
      else if ot < generatorExe then Decision.rebuild
      else
        match (if explicitDeps.isEmpty then
                 (if listerOk then some listerDeps else none)
               else some explicitDeps) with
        | none => Decision.fatalError
        | some deps => specScanDeps ot depTime deps

/-! ## Stage lemmas -/

theorem sfr_tr_mem (cfg : Cfg) (env : Env) (s : St) :
    ∀ e ∈ (SettingsFileRead cfg env s).tr,
      e = Eff.touchSettings ∨ e = Eff.touchLock ∨ e = Eff.lockAcquire ∨
        e = Eff.clearSettings := by
  intro e he
  by_cases h1 : env.settingsFileExists = true <;>
    by_cases h3 : env.lockFileExists = true <;>
    by_cases h5 : env.lockOk = true <;>
    by_cases h6 : env.settingsReadOk = true <;>
    by_cases h7 : settingsStringOf cfg env = SettingsFind env.settingsContent "rcc" <;>
    by_cases h2 : env.settingsTouchOk = true <;>
    by_cases h4 : env.lockTouchOk = true <;>
    by_cases h8 : env.settingsClearOk = true <;>
    simp_all [SettingsFileRead] <;> tauto

theorem sfr_lock_of_acquire (cfg : Cfg) (env : Env) (s : St) :
    Eff.lockAcquire ∈ (SettingsFileRead cfg env s).tr →
      (SettingsFileRead cfg env s).st.lockHeld = true := by
  intro he
  by_cases h1 : env.settingsFileExists = true <;>
    by_cases h3 : env.lockFileExists = true <;>
    by_cases h5 : env.lockOk = true <;>
    by_cases h6 : env.settingsReadOk = true <;>
    by_cases h7 : settingsStringOf cfg env = SettingsFind env.settingsContent "rcc" <;>
    by_cases h2 : env.settingsTouchOk = true <;>
    by_cases h4 : env.lockTouchOk = true <;>
    by_cases h8 : env.settingsClearOk = true <;>
    simp_all [SettingsFileRead]

theorem sfr_st_inputs (cfg : Cfg) (env : Env) (s : St) :
    (SettingsFileRead cfg env s).st.Inputs_ = s.Inputs_ := by
  by_cases h1 : env.settingsFileExists = true <;>
    by_cases h3 : env.lockFileExists = true <;>
    by_cases h5 : env.lockOk = true <;>
    by_cases h6 : env.settingsReadOk = true <;>
    by_cases h7 : settingsStringOf cfg env = SettingsFind env.settingsContent "rcc" <;>
    by_cases h2 : env.settingsTouchOk = true <;>
    by_cases h4 : env.lockTouchOk = true <;>
    by_cases h8 : env.settingsClearOk = true <;>
    simp_all [SettingsFileRead]

theorem tqrc_lock (env : Env) (s : St) :
    (TestQrcRccFiles env s).2.2.lockHeld = s.lockHeld := by
  unfold TestQrcRccFiles
  cases env.qrcTime with
  | none => rfl
  | some qt =>
    cases env.rccTime with
    | none => rfl
    | some rt =>
      by_cases hc : s.SettingsChanged_ = true <;> by_cases h1 : rt < qt <;>
        by_cases h2 : rt < env.exeTime <;> simp [hc, h1, h2]

theorem tres_lock (env : Env) (s : St) :
    (TestResources env s).2.2.1.lockHeld = s.lockHeld := by
  unfold TestResources
  repeat' split
  all_goals simp

theorem tres_tr_shape (env : Env) (s : St) :
    (TestResources env s).2.2.2 = [] ∨
      (TestResources env s).2.2.2 = [Eff.invokeLister] := by
  unfold TestResources
  repeat' split
  all_goals simp

theorem tinfo_lock (env : Env) (s : St) :
    (TestInfoFile env s).2.1.lockHeld = s.lockHeld := by
  unfold TestInfoFile
  repeat' split
  all_goals simp

theorem tinfo_tr_shape (env : Env) (s : St) :
    (TestInfoFile env s).2.2 = [] ∨ (TestInfoFile env s).2.2 = [Eff.touchOutput] := by
  unfold TestInfoFile
  repeat' split
  all_goals simp

theorem grcc_lock (env : Env) (s : St) :
    (GenerateRcc env s).2.1.lockHeld = s.lockHeld := by
  unfold GenerateRcc
  repeat' split
  all_goals simp

theorem grcc_tr_shape (env : Env) (s : St) :
    (GenerateRcc env s).2.2 = [Eff.mkdir] ∨
      (GenerateRcc env s).2.2 =
        [Eff.mkdir, Eff.runRcc, Eff.errorOut (env.rccStdOut ++ env.rccStdErr),
          Eff.removeOutput] ∨
      (GenerateRcc env s).2.2 = [Eff.mkdir, Eff.runRcc] := by
  unfold GenerateRcc
  repeat' split
  all_goals simp

theorem gwrap_lock (cfg : Cfg) (env : Env) (s : St) :
    (GenerateWrapper cfg env s).2.1.lockHeld = s.lockHeld := by
  unfold GenerateWrapper
  repeat' split
  all_goals simp

theorem gwrap_tr_shape (cfg : Cfg) (env : Env) (s : St) :
    (GenerateWrapper cfg env s).2.2 = [] ∨
      (GenerateWrapper cfg env s).2.2 = [Eff.writeWrapper (wrapperContent cfg)] ∨
      (GenerateWrapper cfg env s).2.2 = [Eff.touchWrapper] := by
  unfold GenerateWrapper
  repeat' split
  all_goals simp

theorem sfw_tr_shape (env : Env) (s : St) :
    (SettingsFileWrite env s).tr =
        [Eff.writeSettings ("rcc:" ++ s.SettingsString_ ++ "\n"), Eff.lockRelease] ∨
      (SettingsFileWrite env s).tr =
        [Eff.writeSettings ("rcc:" ++ s.SettingsString_ ++ "\n"), Eff.removeSettings] ∨
      (SettingsFileWrite env s).tr = [Eff.lockRelease] := by
  unfold SettingsFileWrite
  repeat' split
  all_goals simp

theorem sfw_release (env : Env) (s : St) :
    s.lockHeld = true → (SettingsFileWrite env s).st.lockHeld = false →
      Eff.lockRelease ∈ (SettingsFileWrite env s).tr := by
  unfold SettingsFileWrite
  repeat' split
  all_goals simp_all

/-! ## Claim C2: staleness decision refinement -/

theorem scan_eq (env : Env) (rt : Nat) : ∀ l : List String,
    (match scanResources env rt l with
     | (false, _) => Decision.fatalError
     | (true, true) => Decision.rebuild
     | (true, false) => Decision.upToDate) = specScanDeps rt env.inputTime l := by
  intro l
  induction l with
  | nil => simp [scanResources, specScanDeps]
  | cons f rest ih =>
    simp only [scanResources, specScanDeps]
    cases env.inputTime f with
    | none => rfl
    | some ft =>
      by_cases h : rt < ft
      · simp [h]
      · simp only [h, if_neg, if_false]
        exact ih

/-- Claim C2: the staleness decision of the code — `TestQrcRccFiles` composed
with `TestResources` exactly as `Process` composes them — applies the ordered,
short-circuiting rule set of the spec, first match wins: primary input absent
is fatal; else output absent, settings changed, output older than the primary
input, output older than the generator executable each give Rebuild; else the
dependent inputs are resolved and scanned in order (absent fatal, output
older gives Rebuild and stops); else UpToDate. -/
theorem staleness_decision_refines_spec (env : Env) (s : St) :
    codeDecision env s =
      specEvaluate env.qrcTime env.rccTime env.exeTime s.SettingsChanged_
        s.Inputs_ env.listerOk env.listerInputs env.inputTime := by
  unfold codeDecision specEvaluate TestQrcRccFiles
  cases hq : env.qrcTime with
  | none => rfl
  | some qt =>
    cases hr : env.rccTime with
    | none => rfl
    | some rt =>
      by_cases hc : s.SettingsChanged_ = true
      · simp [hc]
      · simp only [Bool.not_eq_true] at hc
        dsimp only
        simp only [hc, Bool.false_eq_true, if_false]
        by_cases h1 : rt < qt
        · simp [h1]
        · simp only [if_neg h1]
          by_cases h2 : rt < env.exeTime
          · simp [h2]
          · simp only [if_neg h2]
            unfold TestResources
            dsimp only
            simp only [Option.getD_some]
            by_cases hi : s.Inputs_.isEmpty
            · simp only [if_pos hi]
              by_cases hl : env.listerOk = true
              · simp only [if_pos hl]
                rcases hscan : scanResources env rt env.listerInputs with ⟨a, b⟩
                have hs := scan_eq env rt env.listerInputs
                rw [hscan] at hs
                cases a <;> cases b <;> simp_all
              · simp only [Bool.not_eq_true] at hl
                simp only [hl, Bool.false_eq_true, if_false]
            · simp only [if_neg hi]
              rcases hscan : scanResources env rt s.Inputs_ with ⟨a, b⟩
              have hs := scan_eq env rt s.Inputs_
              rw [hscan] at hs
              cases a <;> cases b <;> simp_all

/-! ## Further stage characterizations -/

theorem tres_st_shape (env : Env) (s : St) :
    (TestResources env s).2.2.1 = s ∨
      (TestResources env s).2.2.1 = { s with Inputs_ := env.listerInputs } := by
  unfold TestResources
  repeat' split
  all_goals simp

theorem sfr_changed_char (cfg : Cfg) (env : Env) (s : St)
    (hs : env.settingsFileExists = true ∨ env.settingsTouchOk = true)
    (hl : env.lockFileExists = true ∨ env.lockTouchOk = true)
    (hk : env.lockOk = true) (hro : env.settingsReadOk = true)
    (hd : settingsStringOf cfg env ≠ SettingsFind env.settingsContent "rcc") :
    (SettingsFileRead cfg env s).tr =
      (if env.settingsFileExists then [] else [Eff.touchSettings]) ++
        (if env.lockFileExists then [] else [Eff.touchLock]) ++
        [Eff.lockAcquire, Eff.clearSettings] ∧
    (SettingsFileRead cfg env s).st.SettingsChanged_ = true := by
  unfold SettingsFileRead
  rcases hs with hs | hs <;> rcases hl with hl | hl <;>
    by_cases h1 : env.settingsFileExists = true <;>
    by_cases h3 : env.lockFileExists = true <;>
    by_cases h8 : env.settingsClearOk = true <;>
    simp_all

theorem sfr_unreadable_char (cfg : Cfg) (env : Env) (s : St)
    (hs : env.settingsFileExists = true ∨ env.settingsTouchOk = true)
    (hl : env.lockFileExists = true ∨ env.lockTouchOk = true)
    (hk : env.lockOk = true) (hru : env.settingsReadOk = false) :
    (SettingsFileRead cfg env s).ok = true ∧
    (SettingsFileRead cfg env s).st.SettingsChanged_ = true ∧
    Eff.clearSettings ∉ (SettingsFileRead cfg env s).tr := by
  unfold SettingsFileRead
  rcases hs with hs | hs <;> rcases hl with hl | hl <;>
    by_cases h1 : env.settingsFileExists = true <;>
    by_cases h3 : env.lockFileExists = true <;>
    simp_all

theorem tqrc_upToDate_char (env : Env) (s : St) (s2 : St)
    (h : TestQrcRccFiles env s = (true, false, s2)) :
    ∃ qt rt, env.qrcTime = some qt ∧ env.rccTime = some rt ∧
      s.SettingsChanged_ = false ∧ ¬rt < qt ∧ ¬rt < env.exeTime ∧
      s2 = { s with QrcFileTime_ := some qt, RccFileTime_ := some rt } := by
  unfold TestQrcRccFiles at h
  cases hq : env.qrcTime with
  | none => rw [hq] at h; simp at h
  | some qt =>
    rw [hq] at h
    cases hrt : env.rccTime with
    | none => rw [hrt] at h; simp at h
    | some rt =>
      rw [hrt] at h
      by_cases hc : s.SettingsChanged_ = true <;>
        by_cases h1 : rt < qt <;> by_cases h2 : rt < env.exeTime <;>
        simp_all

theorem codeDecision_upToDate_iff (env : Env) (s : St) :
    codeDecision env s = Decision.upToDate ↔
      ∃ s2 s3 tr3, TestQrcRccFiles env s = (true, false, s2) ∧
        TestResources env s2 = (true, false, s3, tr3) := by
  constructor
  · intro h
    unfold codeDecision at h
    rcases h1 : TestQrcRccFiles env s with ⟨ok2, gen1, s2⟩
    rw [h1] at h
    cases ok2 <;> cases gen1 <;> simp_all
    rcases h2 : TestResources env s2 with ⟨ok3, g, s3, tr3⟩
    rw [h2] at h
    cases ok3 <;> cases g <;> simp_all
  · rintro ⟨s2, s3, tr3, h1, h2⟩
    unfold codeDecision
    rw [h1]
    simp only
    rw [h2]
    simp

/-! ## Process-level decomposition -/

theorem process_tr_decomp (cfg : Cfg) (env : Env) :
    ∃ rest, (Process cfg env).tr = (SettingsFileRead cfg env (initSt cfg)).tr ++ rest ∧
      rest.count Eff.invokeLister ≤ 1 ∧ rest.count Eff.runRcc ≤ 1 ∧
      Eff.lockAcquire ∉ rest ∧ Eff.clearSettings ∉ rest := by
  unfold Process
  rcases hr1 : SettingsFileRead cfg env (initSt cfg) with ⟨ok1, s1, tr1⟩
  cases ok1 with
  | false => exact ⟨[], by simp, by simp, by simp, by simp, by simp⟩
  | true =>
    try dsimp only
    rcases h2 : TestQrcRccFiles env s1 with ⟨ok2, gen1, s2⟩
    try rw [h2]
    cases ok2 with
    | false => exact ⟨[], by simp, by simp, by simp, by simp, by simp⟩
    | true =>
      try dsimp only
      rcases h3 : (if gen1 then (true, true, s2, ([] : List Eff))
                   else TestResources env s2) with ⟨ok3, gen, s3, tr3⟩
      try rw [h3]
      have htr3 : tr3 = [] ∨ tr3 = [Eff.invokeLister] := by
        cases gen1
        · simp only [Bool.false_eq_true, if_false] at h3
          have h := tres_tr_shape env s2
          rw [h3] at h
          simpa using h
        · simp only [if_true] at h3
          have h := congrArg (fun x => x.2.2.2) h3
          simp only at h
          exact Or.inl h.symm
      have f3 : tr3.count Eff.invokeLister ≤ 1 ∧ tr3.count Eff.runRcc = 0 ∧
          Eff.lockAcquire ∉ tr3 ∧ Eff.clearSettings ∉ tr3 := by
        rcases htr3 with rfl | rfl <;> refine ⟨?_, ?_, ?_, ?_⟩ <;> simp
      cases ok3 with
      | false =>
        refine ⟨tr3, by simp, ?_, ?_, ?_, ?_⟩ <;> simp [f3.1, f3.2.1, f3.2.2.1, f3.2.2.2]
      | true =>
        try dsimp only
        rcases h4 : (if gen then GenerateRcc env s3 else TestInfoFile env s3) with
          ⟨ok4, s4, tr4⟩
        try rw [h4]
        have f4 : tr4.count Eff.invokeLister = 0 ∧ tr4.count Eff.runRcc ≤ 1 ∧
            Eff.lockAcquire ∉ tr4 ∧ Eff.clearSettings ∉ tr4 := by
          cases gen
          · simp only [Bool.false_eq_true, if_false] at h4
            have h := tinfo_tr_shape env s3
            rw [h4] at h
            simp only at h
            rcases h with rfl | rfl <;> refine ⟨?_, ?_, ?_, ?_⟩ <;> simp
          · simp only [if_true] at h4
            have h := grcc_tr_shape env s3
            rw [h4] at h
            simp only at h
            rcases h with rfl | rfl | rfl <;> refine ⟨?_, ?_, ?_, ?_⟩ <;> simp
        cases ok4 with
        | false =>
          refine ⟨tr3 ++ tr4, by simp, ?_, ?_, ?_, ?_⟩ <;>
            simp [List.count_append, f3.1, f3.2.1, f3.2.2.1, f3.2.2.2,
              f4.1, f4.2.1, f4.2.2.1, f4.2.2.2]
        | true =>
          try dsimp only
          rcases h5 : GenerateWrapper cfg env s4 with ⟨ok5, s5, tr5⟩
          try rw [h5]
          have f5 : tr5.count Eff.invokeLister = 0 ∧ tr5.count Eff.runRcc = 0 ∧
              Eff.lockAcquire ∉ tr5 ∧ Eff.clearSettings ∉ tr5 := by
            have h := gwrap_tr_shape cfg env s4
            rw [h5] at h
            simp only at h
            rcases h with rfl | rfl | rfl <;> refine ⟨?_, ?_, ?_, ?_⟩ <;> simp
          cases ok5 with
          | false =>
            refine ⟨tr3 ++ tr4 ++ tr5, by simp, ?_, ?_, ?_, ?_⟩ <;>
              simp [List.count_append, f3.1, f3.2.1, f3.2.2.1, f3.2.2.2,
                f4.1, f4.2.1, f4.2.2.1, f4.2.2.2, f5.1, f5.2.1, f5.2.2.1, f5.2.2.2]
          | true =>
            try dsimp only
            rcases h6 : SettingsFileWrite env s5 with ⟨ok6, s6, tr6⟩
            try rw [h6]
            have f6 : tr6.count Eff.invokeLister = 0 ∧ tr6.count Eff.runRcc = 0 ∧
                Eff.lockAcquire ∉ tr6 ∧ Eff.clearSettings ∉ tr6 := by
              have h := sfw_tr_shape env s5
              rw [h6] at h
              simp only at h
              rcases h with rfl | rfl | rfl <;> refine ⟨?_, ?_, ?_, ?_⟩ <;> simp
            refine ⟨tr3 ++ tr4 ++ tr5 ++ tr6, by simp, ?_, ?_, ?_, ?_⟩ <;>
              simp [List.count_append, f3.1, f3.2.1, f3.2.2.1, f3.2.2.2,
                f4.1, f4.2.1, f4.2.2.1, f4.2.2.2, f5.1, f5.2.1, f5.2.2.1, f5.2.2.2,
                f6.1, f6.2.1, f6.2.2.1, f6.2.2.2]

theorem tres_lister_char (env : Env) (s : St) :
    Eff.invokeLister ∈ (TestResources env s).2.2.2 → s.Inputs_ = [] := by
  unfold TestResources
  repeat' split
  all_goals simp_all

theorem tinfo_touch_char (env : Env) (s : St) :
    Eff.touchOutput ∈ (TestInfoFile env s).2.2 →
      s.RccFileTime_.getD 0 < env.infoTime := by
  unfold TestInfoFile
  repeat' split
  all_goals simp_all

theorem sfr_no_runRcc (cfg : Cfg) (env : Env) (s : St) :
    Eff.runRcc ∉ (SettingsFileRead cfg env s).tr := by
  intro hmem
  rcases sfr_tr_mem cfg env s _ hmem with h | h | h | h <;> simp_all

theorem sfr_no_lister (cfg : Cfg) (env : Env) (s : St) :
    Eff.invokeLister ∉ (SettingsFileRead cfg env s).tr := by
  intro hmem
  rcases sfr_tr_mem cfg env s _ hmem with h | h | h | h <;> simp_all

theorem process_runRcc_once (cfg : Cfg) (env : Env) :
    (Process cfg env).tr.count Eff.runRcc ≤ 1 := by
  obtain ⟨rest, htr, -, hcount, -, -⟩ := process_tr_decomp cfg env
  rw [htr, List.count_append]
  have h0 : (SettingsFileRead cfg env (initSt cfg)).tr.count Eff.runRcc = 0 :=
    List.count_eq_zero.mpr (sfr_no_runRcc cfg env (initSt cfg))
  omega

theorem process_lister_once (cfg : Cfg) (env : Env) :
    (Process cfg env).tr.count Eff.invokeLister ≤ 1 := by
  obtain ⟨rest, htr, hcount, -, -, -⟩ := process_tr_decomp cfg env
  rw [htr, List.count_append]
  have h0 : (SettingsFileRead cfg env (initSt cfg)).tr.count Eff.invokeLister = 0 :=
    List.count_eq_zero.mpr (sfr_no_lister cfg env (initSt cfg))
  omega

theorem codeDecision_rebuild_iff (env : Env) (s : St) :
    codeDecision env s = Decision.rebuild ↔
      ((∃ s2, TestQrcRccFiles env s = (true, true, s2)) ∨
        (∃ s2 s3 tr3, TestQrcRccFiles env s = (true, false, s2) ∧
          TestResources env s2 = (true, true, s3, tr3))) := by
  constructor
  · intro h
    unfold codeDecision at h
    rcases h1 : TestQrcRccFiles env s with ⟨ok2, gen1, s2⟩
    rw [h1] at h
    cases ok2 <;> cases gen1 <;> simp_all
    rcases h2 : TestResources env s2 with ⟨ok3, g, s3, tr3⟩
    rw [h2] at h
    cases ok3 <;> cases g <;> simp_all
  · intro h
    unfold codeDecision
    rcases h with ⟨s2, h1⟩ | ⟨s2, s3, tr3, h1, h2⟩
    · rw [h1]
    · rw [h1]
      simp only
      rw [h2]
      simp

theorem process_lock_cases (cfg : Cfg) (env : Env) :
    (Process cfg env).st.lockHeld = true ∨
      Eff.lockRelease ∈ (Process cfg env).tr ∨
      Eff.lockAcquire ∉ (Process cfg env).tr := by
  unfold Process
  rcases hr1 : SettingsFileRead cfg env (initSt cfg) with ⟨ok1, s1, tr1⟩
  have hlA : Eff.lockAcquire ∈ tr1 → s1.lockHeld = true := by
    have h := sfr_lock_of_acquire cfg env (initSt cfg)
    rw [hr1] at h
    exact h
  cases ok1 with
  | false =>
    by_cases ha : Eff.lockAcquire ∈ tr1
    · exact Or.inl (hlA ha)
    · exact Or.inr (Or.inr (by simpa using ha))
  | true =>
    try dsimp only
    rcases h2 : TestQrcRccFiles env s1 with ⟨ok2, gen1, s2⟩
    try rw [h2]
    have p2 : s2.lockHeld = s1.lockHeld := by
      have h := tqrc_lock env s1
      rw [h2] at h
      exact h
    cases ok2 with
    | false =>
      by_cases ha : Eff.lockAcquire ∈ tr1
      · exact Or.inl (p2.trans (hlA ha))
      · exact Or.inr (Or.inr (by simpa using ha))
    | true =>
      try dsimp only
      rcases h3 : (if gen1 then (true, true, s2, ([] : List Eff))
                   else TestResources env s2) with ⟨ok3, gen, s3, tr3⟩
      try rw [h3]
      have p3 : s3.lockHeld = s2.lockHeld := by
        cases gen1
        · simp only [Bool.false_eq_true, if_false] at h3
          have h := tres_lock env s2
          rw [h3] at h
          exact h
        · simp only [if_true] at h3
          have h := congrArg (fun x => x.2.2.1) h3
          simp only at h
          rw [← h]
      have a3 : Eff.lockAcquire ∉ tr3 := by
        cases gen1
        · simp only [Bool.false_eq_true, if_false] at h3
          have h := tres_tr_shape env s2
          rw [h3] at h
          simp only at h
          rcases h with rfl | rfl <;> simp
        · simp only [if_true] at h3
          have h := congrArg (fun x => x.2.2.2) h3
          simp only at h
          rw [← h]
          simp
      cases ok3 with
      | false =>
        by_cases ha : Eff.lockAcquire ∈ tr1
        · exact Or.inl (p3.trans (p2.trans (hlA ha)))
        · exact Or.inr (Or.inr (by simp [ha, a3]))
      | true =>
        try dsimp only
        rcases h4 : (if gen then GenerateRcc env s3 else TestInfoFile env s3) with
          ⟨ok4, s4, tr4⟩
        try rw [h4]
        have p4 : s4.lockHeld = s3.lockHeld := by
          cases gen
          · simp only [Bool.false_eq_true, if_false] at h4
            have h := tinfo_lock env s3
            rw [h4] at h
            exact h
          · simp only [if_true] at h4
            have h := grcc_lock env s3
            rw [h4] at h
            exact h
        have a4 : Eff.lockAcquire ∉ tr4 := by
          cases gen
          · simp only [Bool.false_eq_true, if_false] at h4
            have h := tinfo_tr_shape env s3
            rw [h4] at h
            simp only at h
            rcases h with rfl | rfl <;> simp
          · simp only [if_true] at h4
            have h := grcc_tr_shape env s3
            rw [h4] at h
            simp only at h
            rcases h with rfl | rfl | rfl <;> simp
        cases ok4 with
        | false =>
          by_cases ha : Eff.lockAcquire ∈ tr1
          · exact Or.inl (p4.trans (p3.trans (p2.trans (hlA ha))))
          · exact Or.inr (Or.inr (by simp [ha, a3, a4]))
        | true =>
          try dsimp only
          rcases h5 : GenerateWrapper cfg env s4 with ⟨ok5, s5, tr5⟩
          try rw [h5]
          have p5 : s5.lockHeld = s4.lockHeld := by
            have h := gwrap_lock cfg env s4
            rw [h5] at h
            exact h
          have a5 : Eff.lockAcquire ∉ tr5 := by
            have h := gwrap_tr_shape cfg env s4
            rw [h5] at h
            simp only at h
            rcases h with rfl | rfl | rfl <;> simp
          cases ok5 with
          | false =>
            by_cases ha : Eff.lockAcquire ∈ tr1
            · exact Or.inl (p5.trans (p4.trans (p3.trans (p2.trans (hlA ha)))))
            · exact Or.inr (Or.inr (by simp [ha, a3, a4, a5]))
          | true =>
            try dsimp only
            rcases h6 : SettingsFileWrite env s5 with ⟨ok6, s6, tr6⟩
            try rw [h6]
            have a6 : Eff.lockAcquire ∉ tr6 := by
              have h := sfw_tr_shape env s5
              rw [h6] at h
              simp only at h
              rcases h with rfl | rfl | rfl <;> simp
            by_cases ha : Eff.lockAcquire ∈ tr1
            · by_cases hh : s6.lockHeld = true
              · exact Or.inl hh
              · have hrel : Eff.lockRelease ∈ tr6 := by
                  have h := sfw_release env s5
                  rw [h6] at h
                  exact h (p5.trans (p4.trans (p3.trans (p2.trans (hlA ha)))))
                    (by simpa using hh)
                exact Or.inr (Or.inl (by simp [hrel]))
            · exact Or.inr (Or.inr (by simp [ha, a3, a4, a5, a6]))

theorem lister_core (cfg : Cfg) (env : Env) {s1 : St} {tr1 : List Eff}
    {ok2 gen1 : Bool} {s2 : St} {ok3 gen : Bool} {s3 : St} {tr3 : List Eff}
    (hr1 : SettingsFileRead cfg env (initSt cfg) = ⟨true, s1, tr1⟩)
    (h2 : TestQrcRccFiles env s1 = (ok2, gen1, s2))
    (h3 : (if gen1 then (true, true, s2, ([] : List Eff))
            else TestResources env s2) = (ok3, gen, s3, tr3))
    (hok2 : ok2 = true)
    (hf : Eff.invokeLister ∈ tr3) :
    (postReadSt cfg env).SettingsChanged_ = false ∧
      cfg.InitialInputs_ = [] ∧
      ∃ qt rt, env.qrcTime = some qt ∧ env.rccTime = some rt ∧
        ¬rt < qt ∧ ¬rt < env.exeTime := by
  subst hok2
  cases gen1 with
  | true =>
    simp only [if_true] at h3
    have h := congrArg (fun x => x.2.2.2) h3
    simp only at h
    rw [← h] at hf
    simp at hf
  | false =>
    simp only [Bool.false_eq_true, if_false] at h3
    have hin : s2.Inputs_ = [] := by
      apply tres_lister_char env s2
      rw [h3]
      exact hf
    obtain ⟨qt, rt, hq, hrt, hchg, hlt1, hlt2, hs2⟩ := tqrc_upToDate_char env s1 s2 h2
    have hs1in : s1.Inputs_ = cfg.InitialInputs_ := by
      have h := sfr_st_inputs cfg env (initSt cfg)
      rw [hr1] at h
      exact h
    have hpost : postReadSt cfg env = s1 := by
      unfold postReadSt
      rw [hr1]
    refine ⟨by rw [hpost]; exact hchg, ?_, qt, rt, hq, hrt, hlt1, hlt2⟩
    rw [← hs1in]
    rw [hs2] at hin
    simpa using hin

theorem process_lister (cfg : Cfg) (env : Env)
    (h : Eff.invokeLister ∈ (Process cfg env).tr) :
    (postReadSt cfg env).SettingsChanged_ = false ∧
      cfg.InitialInputs_ = [] ∧
      ∃ qt rt, env.qrcTime = some qt ∧ env.rccTime = some rt ∧
        ¬rt < qt ∧ ¬rt < env.exeTime := by
  unfold Process at h
  rcases hr1 : SettingsFileRead cfg env (initSt cfg) with ⟨ok1, s1, tr1⟩
  rw [hr1] at h
  have hn1 : Eff.invokeLister ∉ tr1 := by
    have := sfr_no_lister cfg env (initSt cfg)
    rw [hr1] at this
    exact this
  cases ok1 with
  | false => simp only at h; exact absurd h hn1
  | true =>
    simp only at h
    rcases h2 : TestQrcRccFiles env s1 with ⟨ok2, gen1, s2⟩
    rw [h2] at h
    cases ok2 with
    | false => simp only at h; exact absurd h hn1
    | true =>
      simp only at h
      rcases h3 : (if gen1 then (true, true, s2, ([] : List Eff))
                   else TestResources env s2) with ⟨ok3, gen, s3, tr3⟩
      rw [h3] at h
      cases ok3 with
      | false =>
        simp only [List.mem_append] at h
        rcases h with h | h
        · exact absurd h hn1
        · exact lister_core cfg env hr1 h2 h3 rfl h
      | true =>
        simp only at h
        rcases h4 : (if gen then GenerateRcc env s3 else TestInfoFile env s3) with
          ⟨ok4, s4, tr4⟩
        rw [h4] at h
        have hn4 : Eff.invokeLister ∉ tr4 := by
          cases gen
          · simp only [Bool.false_eq_true, if_false] at h4
            have hs := tinfo_tr_shape env s3
            rw [h4] at hs
            simp only at hs
            rcases hs with rfl | rfl <;> simp
          · simp only [if_true] at h4
            have hs := grcc_tr_shape env s3
            rw [h4] at hs
            simp only at hs
            rcases hs with rfl | rfl | rfl <;> simp
        cases ok4 with
        | false =>
          simp only [List.mem_append] at h
          rcases h with (h | h) | h
          · exact absurd h hn1
          · exact lister_core cfg env hr1 h2 h3 rfl h
          · exact absurd h hn4
        | true =>
          simp only at h
          rcases h5 : GenerateWrapper cfg env s4 with ⟨ok5, s5, tr5⟩
          rw [h5] at h
          have hn5 : Eff.invokeLister ∉ tr5 := by
            have hs := gwrap_tr_shape cfg env s4
            rw [h5] at hs
            simp only at hs
            rcases hs with rfl | rfl | rfl <;> simp
          cases ok5 with
          | false =>
            simp only [List.mem_append] at h
            rcases h with ((h | h) | h) | h
            · exact absurd h hn1
            · exact lister_core cfg env hr1 h2 h3 rfl h
            · exact absurd h hn4
            · exact absurd h hn5
          | true =>
            simp only at h
            rcases h6 : SettingsFileWrite env s5 with ⟨ok6, s6, tr6⟩
            rw [h6] at h
            have hn6 : Eff.invokeLister ∉ tr6 := by
              have hs := sfw_tr_shape env s5
              rw [h6] at hs
              simp only at hs
              rcases hs with rfl | rfl | rfl <;> simp
            simp only [List.mem_append] at h
            rcases h with (((h | h) | h) | h) | h
            · exact absurd h hn1
            · exact lister_core cfg env hr1 h2 h3 rfl h
            · exact absurd h hn4
            · exact absurd h hn5
            · exact absurd h hn6

theorem touch_core (cfg : Cfg) (env : Env) {s1 : St} {tr1 : List Eff}
    {gen1 : Bool} {s2 : St} {gen : Bool} {s3 : St} {tr3 : List Eff}
    {ok4 : Bool} {s4 : St} {tr4 : List Eff}
    (hr1 : SettingsFileRead cfg env (initSt cfg) = ⟨true, s1, tr1⟩)
    (h2 : TestQrcRccFiles env s1 = (true, gen1, s2))
    (h3 : (if gen1 then (true, true, s2, ([] : List Eff))
            else TestResources env s2) = (true, gen, s3, tr3))
    (h4 : (if gen then GenerateRcc env s3 else TestInfoFile env s3) = (ok4, s4, tr4))
    (hf : Eff.touchOutput ∈ tr4) :
    codeDecision env (postReadSt cfg env) = Decision.upToDate ∧
      env.rccTime.getD 0 < env.infoTime ∧ gen1 = false ∧ gen = false := by
  have hgen : gen = false := by
    cases gen
    · rfl
    · simp only [if_true] at h4
      have hs := grcc_tr_shape env s3
      rw [h4] at hs
      simp only at hs
      rcases hs with rfl | rfl | rfl <;> simp at hf
  subst hgen
  simp only [Bool.false_eq_true, if_false] at h4
  have hgen1 : gen1 = false := by
    cases gen1
    · rfl
    · simp only [if_true] at h3
      have h := congrArg (fun x => x.2.1) h3
      simp only at h
      exact absurd h (by simp)
  subst hgen1
  simp only [Bool.false_eq_true, if_false] at h3
  have hpost : postReadSt cfg env = s1 := by
    unfold postReadSt
    rw [hr1]
  obtain ⟨qt, rt, hq, hrt, hchg, hlt1, hlt2, hs2⟩ := tqrc_upToDate_char env s1 s2 h2
  have hrcc3 : s3.RccFileTime_ = s2.RccFileTime_ := by
    have hc := congrArg (fun x => x.2.2.1) h3
    simp only at hc
    rcases tres_st_shape env s2 with hsh | hsh <;> rw [hc] at hsh <;> rw [hsh]
  have htime : s3.RccFileTime_.getD 0 < env.infoTime := by
    apply tinfo_touch_char env s3
    rw [h4]
    exact hf
  refine ⟨?_, ?_, rfl, rfl⟩
  · rw [hpost]
    exact (codeDecision_upToDate_iff env s1).mpr ⟨s2, s3, tr3, h2, h3⟩
  · rw [hrcc3] at htime
    rw [hs2] at htime
    simp only at htime
    rw [hrt]
    simpa using htime

theorem process_touch (cfg : Cfg) (env : Env)
    (h : Eff.touchOutput ∈ (Process cfg env).tr) :
    codeDecision env (postReadSt cfg env) = Decision.upToDate ∧
      env.rccTime.getD 0 < env.infoTime ∧
      Eff.runRcc ∉ (Process cfg env).tr := by
  unfold Process at h ⊢
  rcases hr1 : SettingsFileRead cfg env (initSt cfg) with ⟨ok1, s1, tr1⟩
  rw [hr1] at h
  have hn1 : Eff.touchOutput ∉ tr1 := by
    intro hmem
    rcases sfr_tr_mem cfg env (initSt cfg) _ (by rw [hr1]; exact hmem) with
      hh | hh | hh | hh <;> simp_all
  have hr1' : Eff.runRcc ∉ tr1 := by
    have := sfr_no_runRcc cfg env (initSt cfg)
    rw [hr1] at this
    exact this
  cases ok1 with
  | false => simp only at h; exact absurd h hn1
  | true =>
    simp only at h
    try dsimp only
    rcases h2 : TestQrcRccFiles env s1 with ⟨ok2, gen1, s2⟩
    rw [h2] at h
    try rw [h2]
    cases ok2 with
    | false => simp only at h; exact absurd h hn1
    | true =>
      simp only at h
      try dsimp only
      rcases h3 : (if gen1 then (true, true, s2, ([] : List Eff))
                   else TestResources env s2) with ⟨ok3, gen, s3, tr3⟩
      rw [h3] at h
      try rw [h3]
      have hn3 : Eff.touchOutput ∉ tr3 := by
        cases gen1
        · simp only [Bool.false_eq_true, if_false] at h3
          have hs := tres_tr_shape env s2
          rw [h3] at hs
          simp only at hs
          rcases hs with rfl | rfl <;> simp
        · simp only [if_true] at h3
          have hc := congrArg (fun x => x.2.2.2) h3
          simp only at hc
          rw [← hc]
          simp
      have hl3 : Eff.runRcc ∉ tr3 := by
        cases gen1
        · simp only [Bool.false_eq_true, if_false] at h3
          have hs := tres_tr_shape env s2
          rw [h3] at hs
          simp only at hs
          rcases hs with rfl | rfl <;> simp
        · simp only [if_true] at h3
          have hc := congrArg (fun x => x.2.2.2) h3
          simp only at hc
          rw [← hc]
          simp
      cases ok3 with
      | false =>
        simp only [List.mem_append] at h
        rcases h with h | h
        · exact absurd h hn1
        · exact absurd h hn3
      | true =>
        simp only at h
        try dsimp only
        rcases h4 : (if gen then GenerateRcc env s3 else TestInfoFile env s3) with
          ⟨ok4, s4, tr4⟩
        rw [h4] at h
        try rw [h4]
        cases ok4 with
        | false =>
          simp only [List.mem_append] at h
          rcases h with (h | h) | h
          · exact absurd h hn1
          · exact absurd h hn3
          · obtain ⟨hdec, htime, hg1, hg⟩ := touch_core cfg env hr1 h2 h3 h4 h
            subst hg1
            subst hg
            simp only [Bool.false_eq_true, if_false] at h4
            have hs := tinfo_tr_shape env s3
            rw [h4] at hs
            simp only at hs
            refine ⟨hdec, htime, ?_⟩
            rcases hs with rfl | rfl <;> simp [hr1', hl3]
        | true =>
          simp only at h
          try dsimp only
          rcases h5 : GenerateWrapper cfg env s4 with ⟨ok5, s5, tr5⟩
          rw [h5] at h
          try rw [h5]
          have hn5 : Eff.touchOutput ∉ tr5 ∧ Eff.runRcc ∉ tr5 := by
            have hs := gwrap_tr_shape cfg env s4
            rw [h5] at hs
            simp only at hs
            rcases hs with rfl | rfl | rfl <;> exact ⟨by simp, by simp⟩
          have hcore : Eff.touchOutput ∈ tr4 →
              codeDecision env (postReadSt cfg env) = Decision.upToDate ∧
                env.rccTime.getD 0 < env.infoTime ∧ gen1 = false ∧ gen = false :=
            fun hf => touch_core cfg env hr1 h2 h3 h4 hf
          cases ok5 with
          | false =>
            simp only [List.mem_append] at h
            rcases h with ((h | h) | h) | h
            · exact absurd h hn1
            · exact absurd h hn3
            · obtain ⟨hdec, htime, hg1, hg⟩ := hcore h
              subst hg
              simp only [Bool.false_eq_true, if_false] at h4
              have hs := tinfo_tr_shape env s3
              rw [h4] at hs
              simp only at hs
              refine ⟨hdec, htime, ?_⟩
              rcases hs with rfl | rfl <;> simp [hr1', hl3, hn5.2]
            · exact absurd h hn5.1
          | true =>
            simp only at h
            try dsimp only
            rcases h6 : SettingsFileWrite env s5 with ⟨ok6, s6, tr6⟩
            rw [h6] at h
            try rw [h6]
            have hn6 : Eff.touchOutput ∉ tr6 ∧ Eff.runRcc ∉ tr6 := by
              have hs := sfw_tr_shape env s5
              rw [h6] at hs
              simp only at hs
              rcases hs with rfl | rfl | rfl <;> exact ⟨by simp, by simp⟩
            simp only [List.mem_append] at h
            rcases h with (((h | h) | h) | h) | h
            · exact absurd h hn1
            · exact absurd h hn3
            · obtain ⟨hdec, htime, hg1, hg⟩ := hcore h
              subst hg
              simp only [Bool.false_eq_true, if_false] at h4
              have hs := tinfo_tr_shape env s3
              rw [h4] at hs
              simp only at hs
              refine ⟨hdec, htime, ?_⟩
              rcases hs with rfl | rfl <;> simp [hr1', hl3, hn5.2, hn6.2]
            · exact absurd h hn5.1
            · exact absurd h hn6.1

theorem process_upToDate_run (cfg : Cfg) (env : Env)
    (hok : (SettingsFileRead cfg env (initSt cfg)).ok = true)
    (hdec : codeDecision env (postReadSt cfg env) = Decision.upToDate)
    (ht : env.rccTime.getD 0 < env.infoTime)
    (htouch : env.touchOutputOk = true) :
    Eff.touchOutput ∈ (Process cfg env).tr ∧
      (cfg.MultiConfig_ = true → env.wrapperOld = some (wrapperContent cfg) →
        env.wrapperTouchOk = true → Eff.touchWrapper ∈ (Process cfg env).tr) := by
  unfold Process
  rcases hr1 : SettingsFileRead cfg env (initSt cfg) with ⟨ok1, s1, tr1⟩
  rw [hr1] at hok
  simp only at hok
  subst hok
  have hpost : postReadSt cfg env = s1 := by
    unfold postReadSt
    rw [hr1]
  rw [hpost] at hdec
  obtain ⟨s2, s3, tr3, hq, hres⟩ := (codeDecision_upToDate_iff env s1).mp hdec
  obtain ⟨qt, rt, hqt, hrt, hchg, hl1, hl2, hs2⟩ := tqrc_upToDate_char env s1 s2 hq
  have hrcc3 : s3.RccFileTime_ = some rt := by
    have hc := congrArg (fun x => x.2.2.1) hres
    simp only at hc
    rcases tres_st_shape env s2 with hsh | hsh <;> rw [hc] at hsh <;>
      rw [hsh] <;> rw [hs2]
  have hrt' : rt < env.infoTime := by
    rw [hrt] at ht
    simpa using ht
  have hti : TestInfoFile env s3 =
      (true, { s3 with BuildFileChanged_ := true }, [Eff.touchOutput]) := by
    unfold TestInfoFile
    rw [hrcc3]
    simp [htouch, hrt']
  try dsimp only
  rw [hq]
  try dsimp only
  try simp only [Bool.false_eq_true, eq_self_iff_true, if_false, if_true]
  rw [hres]
  try dsimp only
  try simp only [Bool.false_eq_true, eq_self_iff_true, if_false, if_true]
  rw [hti]
  try dsimp only
  constructor
  · rcases h5 : GenerateWrapper cfg env { s3 with BuildFileChanged_ := true } with
      ⟨ok5, s5, tr5⟩
    try rw [h5]
    cases ok5 with
    | false => simp
    | true =>
      try dsimp only
      rcases h6 : SettingsFileWrite env s5 with ⟨ok6, s6, tr6⟩
      try rw [h6]
      simp
  · intro hm hold htch
    have hgw : GenerateWrapper cfg env { s3 with BuildFileChanged_ := true } =
        (true, { s3 with BuildFileChanged_ := true }, [Eff.touchWrapper]) := by
      unfold GenerateWrapper
      rw [hm, hold]
      simp [htch]
    rw [hgw]
    try dsimp only
    rcases h6 : SettingsFileWrite env { s3 with BuildFileChanged_ := true } with
      ⟨ok6, s6, tr6⟩
    try rw [h6]
    simp

theorem process_rebuild_run (cfg : Cfg) (env : Env)
    (hok : (SettingsFileRead cfg env (initSt cfg)).ok = true)
    (hdec : codeDecision env (postReadSt cfg env) = Decision.rebuild)
    (hmk : env.mkdirOk = true) (hla : env.rccLaunchOk = true)
    (hrv : env.rccRetVal = 0) :
    Eff.runRcc ∈ (Process cfg env).tr ∧
      (cfg.MultiConfig_ = true → env.wrapperOld = some (wrapperContent cfg) →
        env.wrapperTouchOk = true → Eff.touchWrapper ∈ (Process cfg env).tr) := by
  unfold Process
  rcases hr1 : SettingsFileRead cfg env (initSt cfg) with ⟨ok1, s1, tr1⟩
  rw [hr1] at hok
  simp only at hok
  subst hok
  have hpost : postReadSt cfg env = s1 := by
    unfold postReadSt
    rw [hr1]
  rw [hpost] at hdec
  have hgr : ∀ s : St, GenerateRcc env s =
      (true, { s with BuildFileChanged_ := true }, [Eff.mkdir, Eff.runRcc]) := by
    intro s
    unfold GenerateRcc
    simp [hmk, hla, hrv]
  have hgw : ∀ s : St, cfg.MultiConfig_ = true →
      env.wrapperOld = some (wrapperContent cfg) → env.wrapperTouchOk = true →
      s.BuildFileChanged_ = true →
      GenerateWrapper cfg env s = (true, s, [Eff.touchWrapper]) := by
    intro s hm hold htch hb
    unfold GenerateWrapper
    rw [hm, hold]
    simp [htch, hb]
  rcases (codeDecision_rebuild_iff env s1).mp hdec with ⟨s2, hq⟩ | ⟨s2, s3, tr3, hq, hres⟩
  · try dsimp only
    rw [hq]
    try dsimp only
    try simp only [Bool.false_eq_true, eq_self_iff_true, if_false, if_true]
    try dsimp only
    rw [hgr s2]
    try dsimp only
    constructor
    · rcases h5 : GenerateWrapper cfg env { s2 with BuildFileChanged_ := true } with
        ⟨ok5, s5, tr5⟩
      try rw [h5]
      cases ok5 with
      | false => simp
      | true =>
        try dsimp only
        rcases h6 : SettingsFileWrite env s5 with ⟨ok6, s6, tr6⟩
        try rw [h6]
        simp
    · intro hm hold htch
      rw [hgw { s2 with BuildFileChanged_ := true } hm hold htch (by simp)]
      try dsimp only
      rcases h6 : SettingsFileWrite env { s2 with BuildFileChanged_ := true } with
        ⟨ok6, s6, tr6⟩
      try rw [h6]
      simp
  · try dsimp only
    rw [hq]
    try dsimp only
    try simp only [Bool.false_eq_true, eq_self_iff_true, if_false, if_true]
    rw [hres]
    try dsimp only
    try simp only [Bool.false_eq_true, eq_self_iff_true, if_false, if_true]
    try dsimp only
    rw [hgr s3]
    try dsimp only
    constructor
    · rcases h5 : GenerateWrapper cfg env { s3 with BuildFileChanged_ := true } with
        ⟨ok5, s5, tr5⟩
      try rw [h5]
      cases ok5 with
      | false => simp
      | true =>
        try dsimp only
        rcases h6 : SettingsFileWrite env s5 with ⟨ok6, s6, tr6⟩
        try rw [h6]
        simp
    · intro hm hold htch
      rw [hgw { s3 with BuildFileChanged_ := true } hm hold htch (by simp)]
      try dsimp only
      rcases h6 : SettingsFileWrite env { s3 with BuildFileChanged_ := true } with
        ⟨ok6, s6, tr6⟩
      try rw [h6]
      simp

/-! ## Concrete instances used by the witnesses -/

/-- A concrete configuration for witness runs. -/
def cfgB : Cfg :=
  { RccExecutable_ := "rcc", RccListOptions_ := [], QrcFile_ := "app.qrc",
    RccPathChecksum_ := "a1b2", RccFileName_ := "qrc_app.cxx", Options_ := [],
    InitialInputs_ := ["r.png"], MultiConfig_ := false,
    AutogenBuildDir_ := "bld", IncludeDir_ := "inc", LockFile_ := "lock",
    SettingsFile_ := "settings" }

/-- A concrete environment in which a full run succeeds with a rebuild. -/
def envB : Env :=
  { hash := fun s => s, settingsFileExists := true, settingsTouchOk := true,
    lockFileExists := true, lockTouchOk := true, lockOk := true,
    settingsReadOk := true, settingsContent := "rcc:old\n",
    settingsClearOk := true, settingsWriteOk := true,
    qrcTime := some 5, rccTime := some 10, exeTime := 3, infoTime := 4,
    listerOk := true, listerInputs := ["l.png"], inputTime := fun _ => some 2,
    mkdirOk := true, rccLaunchOk := true, rccRetVal := 0, rccStdOut := "",
    rccStdErr := "", touchOutputOk := true, wrapperOld := none,
    wrapperWriteOk := true, wrapperTouchOk := true }

/-- A concrete member state with the change flag set. -/
def stC4 : St :=
  { SettingsString_ := "d", SettingsChanged_ := true, BuildFileChanged_ := false,
    lockHeld := true, Inputs_ := [], QrcFileTime_ := none, RccFileTime_ := none }

/-! ## Claim theorems -/

/-- Claim C1: on every exit path of a run — including early error returns from
settings reading, staleness evaluation, generation or wrapper publishing, and
a failed settings write-back in `SettingsFileWrite` — the exclusive lock is
released before the run ends: the run's final state never holds the lock, and
whenever the lock was acquired a release is performed.  (`Process` itself
reaches its explicit `LockFileLock_.Release()` only on the successful path;
on all other paths the release is performed by the `cmFileLock` destructor,
modelled from the spec in `RunWithDtor`.) -/
theorem lock_released_on_every_exit (cfg : Cfg) (env : Env) :
    (RunWithDtor cfg env).st.lockHeld = false ∧
      (Eff.lockAcquire ∈ (RunWithDtor cfg env).tr →
        Eff.lockRelease ∈ (RunWithDtor cfg env).tr) := by
  unfold RunWithDtor
  have hcases := process_lock_cases cfg env
  by_cases hh : (Process cfg env).st.lockHeld = true
  · simp [hh]
  · have hh' : (Process cfg env).st.lockHeld = false := by simpa using hh
    rw [if_neg hh]
    refine ⟨hh', fun hacq => ?_⟩
    rcases hcases with hc | hc | hc
    · exact absurd hc hh
    · exact hc
    · exact absurd hacq hc

/-- Witness for C1: a concrete run that acquires the lock and releases it. -/
theorem lock_released_on_every_exit_witness :
    Eff.lockAcquire ∈ (RunWithDtor cfgB envB).tr ∧
      Eff.lockRelease ∈ (RunWithDtor cfgB envB).tr :=
  ⟨by decide, (lock_released_on_every_exit cfgB envB).2 (by decide)⟩

/-- Claim C4: the settings record is rewritten at the end of a run iff the
change flag is set — when set, the attempted write content is exactly
`"rcc:" ++ digest ++ "\n"`; if that write fails the settings file is removed
and the failure is reported (`ok = false`); when the flag is clear the file
is neither rewritten nor removed. -/
theorem settings_write_iff_changed (env : Env) (s : St) :
    (s.SettingsChanged_ = true →
      Eff.writeSettings ("rcc:" ++ s.SettingsString_ ++ "\n") ∈
          (SettingsFileWrite env s).tr ∧
        (env.settingsWriteOk = true → (SettingsFileWrite env s).ok = true ∧
          Eff.removeSettings ∉ (SettingsFileWrite env s).tr) ∧
        (env.settingsWriteOk = false → (SettingsFileWrite env s).ok = false ∧
          Eff.removeSettings ∈ (SettingsFileWrite env s).tr)) ∧
    (s.SettingsChanged_ = false →
      (SettingsFileWrite env s).ok = true ∧
        (∀ c, Eff.writeSettings c ∉ (SettingsFileWrite env s).tr) ∧
        Eff.removeSettings ∉ (SettingsFileWrite env s).tr) := by
  unfold SettingsFileWrite
  by_cases hc : s.SettingsChanged_ = true <;>
    by_cases hw : env.settingsWriteOk = true <;> simp_all

/-- Witness for C4: with the change flag set and a succeeding write, the new
record is written and the stage succeeds. -/
theorem settings_write_iff_changed_witness :
    Eff.writeSettings ("rcc:" ++ stC4.SettingsString_ ++ "\n") ∈
        (SettingsFileWrite envB stC4).tr ∧
      (SettingsFileWrite envB stC4).ok = true :=
  ⟨((settings_write_iff_changed envB stC4).1 (by decide)).1,
    (((settings_write_iff_changed envB stC4).1 (by decide)).2.1 (by decide)).1⟩

/-- Claim C6: if the generator fails to launch or exits non-zero, the run
fails, the output file is removed (stale leftovers included) and the captured
stdout+stderr is surfaced; on zero exit the run succeeds and the output is
marked freshly rebuilt; and in a whole run the generator is invoked at most
once (no retry). -/
theorem rcc_failure_and_success (cfg : Cfg) (env : Env) (s : St) :
    (env.mkdirOk = true → (env.rccLaunchOk = false ∨ env.rccRetVal ≠ 0) →
      (GenerateRcc env s).1 = false ∧
        Eff.removeOutput ∈ (GenerateRcc env s).2.2 ∧
        Eff.errorOut (env.rccStdOut ++ env.rccStdErr) ∈ (GenerateRcc env s).2.2) ∧
    (env.mkdirOk = true → env.rccLaunchOk = true → env.rccRetVal = 0 →
      (GenerateRcc env s).1 = true ∧
        (GenerateRcc env s).2.1.BuildFileChanged_ = true ∧
        Eff.removeOutput ∉ (GenerateRcc env s).2.2) ∧
    (Process cfg env).tr.count Eff.runRcc ≤ 1 := by
  refine ⟨?_, ?_, process_runRcc_once cfg env⟩
  · intro h1 h2
    unfold GenerateRcc
    rcases h2 with h2 | h2 <;> simp [h1, h2]
  · intro h1 h2 h3
    unfold GenerateRcc
    simp [h1, h2, h3]

/-- Witness for C6: a concrete launch failure removes the output and surfaces
the captured output. -/
theorem rcc_failure_and_success_witness :
    (GenerateRcc { envB with rccLaunchOk := false } stC4).1 = false ∧
      Eff.removeOutput ∈ (GenerateRcc { envB with rccLaunchOk := false } stC4).2.2 :=
  ⟨((rcc_failure_and_success cfgB { envB with rccLaunchOk := false } stC4).1
      (by decide) (Or.inl (by decide))).1,
    ((rcc_failure_and_success cfgB { envB with rccLaunchOk := false } stC4).1
      (by decide) (Or.inl (by decide))).2.1⟩

/-- Claim C8: in multi-configuration mode the wrapper content is exactly the
two-line banner plus one `#include` of the configuration-specific relative
path; it is compared byte-for-byte with the existing wrapper, written only
when different, and only touched when identical while a rebuild (or touch)
occurred; with identical content and no rebuild nothing happens; in
single-configuration mode the wrapper step is a no-op. -/
theorem wrapper_publish_spec (cfg : Cfg) (env : Env) (s : St) :
    (wrapperContent cfg =
      "// This is an autogenerated configuration wrapper file.\n" ++
        "// Changes will be overwritten.\n" ++
        "#include <" ++ MultiConfigOutput cfg ++ ">\n") ∧
    (cfg.MultiConfig_ = false → GenerateWrapper cfg env s = (true, s, [])) ∧
    (cfg.MultiConfig_ = true → env.wrapperOld ≠ some (wrapperContent cfg) →
      Eff.writeWrapper (wrapperContent cfg) ∈ (GenerateWrapper cfg env s).2.2 ∧
        Eff.touchWrapper ∉ (GenerateWrapper cfg env s).2.2 ∧
        ((GenerateWrapper cfg env s).1 = true ↔ env.wrapperWriteOk = true)) ∧
    (cfg.MultiConfig_ = true → env.wrapperOld = some (wrapperContent cfg) →
      s.BuildFileChanged_ = true →
      (∀ c, Eff.writeWrapper c ∉ (GenerateWrapper cfg env s).2.2) ∧
        Eff.touchWrapper ∈ (GenerateWrapper cfg env s).2.2 ∧
        ((GenerateWrapper cfg env s).1 = true ↔ env.wrapperTouchOk = true)) ∧
    (cfg.MultiConfig_ = true → env.wrapperOld = some (wrapperContent cfg) →
      s.BuildFileChanged_ = false → GenerateWrapper cfg env s = (true, s, [])) := by
  refine ⟨rfl, ?_, ?_, ?_, ?_⟩
  · intro hm
    unfold GenerateWrapper
    simp [hm]
  · intro hm hne
    unfold GenerateWrapper
    rcases ho : env.wrapperOld with _ | old
    · cases hw : env.wrapperWriteOk <;> simp [hm, ho, hw]
    · have hd : (old != wrapperContent cfg) = true := by
        rw [ho] at hne
        simpa using fun h => hne (by rw [h])
      cases hw : env.wrapperWriteOk <;> simp [hm, ho, hd, hw]
  · intro hm ho hb
    unfold GenerateWrapper
    cases ht : env.wrapperTouchOk <;> simp [hm, ho, hb, ht]
  · intro hm ho hb
    unfold GenerateWrapper
    simp [hm, ho, hb]

/-- Witness for C8: with identical content after a rebuild the wrapper is
only touched, never rewritten. -/
theorem wrapper_publish_spec_witness :
    Eff.touchWrapper ∈
      (GenerateWrapper { cfgB with MultiConfig_ := true }
        { envB with
            wrapperOld := some (wrapperContent { cfgB with MultiConfig_ := true }) }
        { stC4 with BuildFileChanged_ := true }).2.2 :=
  ((wrapper_publish_spec { cfgB with MultiConfig_ := true }
      { envB with
          wrapperOld := some (wrapperContent { cfgB with MultiConfig_ := true }) }
      { stC4 with BuildFileChanged_ := true }).2.2.2.1
    (by decide) (by decide) (by decide)).2.1

/-- A concrete info-file valuation with an empty lock-file path. -/
def infoNoLock : Info :=
  { multiConfig := false, buildDir := "bld", includeDir := "inc",
    rccExecutable := "rcc", listOptions := [], lockFile := "",
    qrcFile := "app.qrc", pathChecksum := "a1b2", fileName := "out.cxx",
    options := [], inputs := [], settingsFile := "settings" }

/-- A concrete info-file valuation with an empty settings-file path. -/
def infoNoSettings : Info :=
  { infoNoLock with lockFile := "lock", settingsFile := "" }

/-- A concrete `Init` environment where the info file reads fine and the
generator executable exists. -/
def ienvB : InitEnv := { readListFileOk := true, exeTime := some 3 }

theorem init_tr_mem (info : Info) (ienv : InitEnv) :
    ∀ e ∈ (Init info ienv).2, e = InitEff.readInfoFile ∨ e = InitEff.statExe := by
  unfold Init
  repeat' split
  all_goals simp

theorem init_ok_char (info : Info) (ienv : InitEnv)
    (h : (Init info ienv).1 = true) :
    info.lockFile ≠ "" ∧ info.settingsFile ≠ "" ∧ info.buildDir ≠ "" ∧
      info.rccExecutable ≠ "" ∧ info.qrcFile ≠ "" ∧ info.fileName ≠ "" := by
  unfold Init at h
  repeat' split at h
  all_goals simp_all

/-- Claim C3, counterexample to the claim as stated: when the settings record
is unreadable, the read step detects a change (`SettingsChanged_` is set) and
succeeds, yet the settings file is never truncated during the whole run — no
`FileWrite(SettingsFile_, "")` occurs. -/
theorem settings_truncation_counterexample :
    (SettingsFileRead cfgB { envB with settingsReadOk := false }
        (initSt cfgB)).ok = true ∧
      (postReadSt cfgB { envB with settingsReadOk := false }).SettingsChanged_ =
        true ∧
      Eff.clearSettings ∉ (Process cfgB { envB with settingsReadOk := false }).tr := by
  decide

/-- Claim C3 (amended): when the settings read step finds a readable record
whose stored digest differs from the freshly computed digest, the settings
file is truncated to empty immediately — before any staleness evaluation,
lister invocation, generation or wrapper effect; when the record is
unreadable, the change flag is set but no truncation is performed (the
record is already absent or invalid). -/
theorem settings_truncated_on_change (cfg : Cfg) (env : Env) :
    ((env.settingsFileExists = true ∨ env.settingsTouchOk = true) →
      (env.lockFileExists = true ∨ env.lockTouchOk = true) →
      env.lockOk = true → env.settingsReadOk = true →
      settingsStringOf cfg env ≠ SettingsFind env.settingsContent "rcc" →
      ∃ pre post, (Process cfg env).tr = pre ++ Eff.clearSettings :: post ∧
        ∀ e ∈ pre, e = Eff.touchSettings ∨ e = Eff.touchLock ∨
          e = Eff.lockAcquire) ∧
    ((env.settingsFileExists = true ∨ env.settingsTouchOk = true) →
      (env.lockFileExists = true ∨ env.lockTouchOk = true) →
      env.lockOk = true → env.settingsReadOk = false →
      (postReadSt cfg env).SettingsChanged_ = true ∧
        Eff.clearSettings ∉ (Process cfg env).tr) := by
  constructor
  · intro hs hl hk hro hd
    obtain ⟨rest, htr, -, -, -, hnc⟩ := process_tr_decomp cfg env
    obtain ⟨htr1, -⟩ := sfr_changed_char cfg env (initSt cfg) hs hl hk hro hd
    refine ⟨(if env.settingsFileExists then [] else [Eff.touchSettings]) ++
        (if env.lockFileExists then [] else [Eff.touchLock]) ++ [Eff.lockAcquire],
      rest, ?_, ?_⟩
    · rw [htr, htr1]
      simp
    · intro e he
      by_cases h1 : env.settingsFileExists = true <;>
        by_cases h2 : env.lockFileExists = true <;> simp_all
      all_goals tauto
  · intro hs hl hk hro
    obtain ⟨hok, hflag, hnc1⟩ := sfr_unreadable_char cfg env (initSt cfg) hs hl hk hro
    obtain ⟨rest, htr, -, -, -, hnc2⟩ := process_tr_decomp cfg env
    refine ⟨hflag, ?_⟩
    rw [htr]
    simp [hnc1, hnc2]

/-- Witness for the amended C3: a concrete digest mismatch truncates before
everything else, and a concrete unreadable record sets the flag without
truncating. -/
theorem settings_truncated_on_change_witness :
    (∃ pre post, (Process cfgB envB).tr = pre ++ Eff.clearSettings :: post ∧
      ∀ e ∈ pre, e = Eff.touchSettings ∨ e = Eff.touchLock ∨
        e = Eff.lockAcquire) ∧
    ((postReadSt cfgB { envB with settingsReadOk := false }).SettingsChanged_ =
        true ∧
      Eff.clearSettings ∉
        (Process cfgB { envB with settingsReadOk := false }).tr) :=
  ⟨(settings_truncated_on_change cfgB envB).1 (Or.inl (by decide))
      (Or.inl (by decide)) (by decide) (by decide) (by decide),
    (settings_truncated_on_change cfgB { envB with settingsReadOk := false }).2
      (Or.inl (by decide)) (Or.inl (by decide)) (by decide) (by decide)⟩

/-- Claim C5: the external lister is invoked at most once per run; it is
invoked only when the explicit dependent-input list is empty and none of the
earlier staleness rules decided (output present, settings unchanged, output
not older than the primary input nor the generator); in particular when the
settings digest changed the lister is never invoked. -/
theorem lister_single_lazy_invocation (cfg : Cfg) (env : Env) :
    (Process cfg env).tr.count Eff.invokeLister ≤ 1 ∧
    (Eff.invokeLister ∈ (Process cfg env).tr →
      cfg.InitialInputs_ = [] ∧
        (postReadSt cfg env).SettingsChanged_ = false ∧
        ∃ qt rt, env.qrcTime = some qt ∧ env.rccTime = some rt ∧
          ¬rt < qt ∧ ¬rt < env.exeTime) ∧
    ((postReadSt cfg env).SettingsChanged_ = true →
      Eff.invokeLister ∉ (Process cfg env).tr) := by
  refine ⟨process_lister_once cfg env, ?_, ?_⟩
  · intro h
    obtain ⟨hchg, hin, hex⟩ := process_lister cfg env h
    exact ⟨hin, hchg, hex⟩
  · intro hchg h
    have hf := (process_lister cfg env h).1
    rw [hf] at hchg
    simp at hchg

/-- Witness for C5: a run with an empty explicit list, unchanged settings and
no earlier rebuild rule firing does invoke the lister. -/
theorem lister_single_lazy_invocation_witness :
    { cfgB with InitialInputs_ := ([] : List String) }.InitialInputs_ = [] ∧
      (postReadSt { cfgB with InitialInputs_ := ([] : List String) }
        { envB with settingsContent :=
            "rcc:" ++ settingsHashInput { cfgB with InitialInputs_ := ([] : List String) } ++
              "\n" }).SettingsChanged_ = false ∧
      ∃ qt rt,
        ({ envB with settingsContent :=
            "rcc:" ++ settingsHashInput { cfgB with InitialInputs_ := ([] : List String) } ++
              "\n" } : Env).qrcTime = some qt ∧
        ({ envB with settingsContent :=
            "rcc:" ++ settingsHashInput { cfgB with InitialInputs_ := ([] : List String) } ++
              "\n" } : Env).rccTime = some rt ∧
        ¬rt < qt ∧
        ¬rt < ({ envB with settingsContent :=
            "rcc:" ++ settingsHashInput { cfgB with InitialInputs_ := ([] : List String) } ++
              "\n" } : Env).exeTime :=
  (lister_single_lazy_invocation { cfgB with InitialInputs_ := ([] : List String) }
      { envB with settingsContent :=
          "rcc:" ++ settingsHashInput { cfgB with InitialInputs_ := ([] : List String) } ++
            "\n" }).2.1 (by decide)

/-- Claim C7: the TouchOnly check runs only when the staleness decision was
UpToDate — a trace containing the output touch implies the decision was
UpToDate, the output was strictly older than the info file, and no generator
ran; after a Rebuild decision the output is never touched; and conversely on
a successful read with decision UpToDate and an output older than the info
file, the output's timestamp is advanced. -/
theorem touch_only_when_up_to_date (cfg : Cfg) (env : Env) :
    (Eff.touchOutput ∈ (Process cfg env).tr →
      codeDecision env (postReadSt cfg env) = Decision.upToDate ∧
        env.rccTime.getD 0 < env.infoTime ∧
        Eff.runRcc ∉ (Process cfg env).tr) ∧
    (codeDecision env (postReadSt cfg env) = Decision.rebuild →
      Eff.touchOutput ∉ (Process cfg env).tr) ∧
    ((SettingsFileRead cfg env (initSt cfg)).ok = true →
      codeDecision env (postReadSt cfg env) = Decision.upToDate →
      env.rccTime.getD 0 < env.infoTime → env.touchOutputOk = true →
      Eff.touchOutput ∈ (Process cfg env).tr) := by
  refine ⟨fun h => process_touch cfg env h, ?_,
    fun hok hdec ht htch => (process_upToDate_run cfg env hok hdec ht htch).1⟩
  intro hreb hmem
  have hud := (process_touch cfg env hmem).1
  rw [hud] at hreb
  simp at hreb

/-- Witness for C7: a concrete up-to-date run whose output is older than the
info file touches the output. -/
theorem touch_only_when_up_to_date_witness :
    Eff.touchOutput ∈
      (Process cfgB
        { envB with
            settingsContent := "rcc:" ++ settingsHashInput cfgB ++ "\n",
            infoTime := 20 }).tr :=
  (touch_only_when_up_to_date cfgB
      { envB with
          settingsContent := "rcc:" ++ settingsHashInput cfgB ++ "\n",
          infoTime := 20 }).2.2 (by decide) (by decide) (by decide) (by decide)

/-- Claim C9, counterexample to the claim as stated: with an empty lock-file
path (all other inputs present), `Init` aborts — but only after the info
file was read and the generator executable was stat'ed, so file I/O does
happen before the abort. -/
theorem init_aborts_counterexample :
    infoNoLock.lockFile = "" ∧ (Init infoNoLock ienvB).1 = false ∧
      InitEff.statExe ∈ (Init infoNoLock ienvB).2 := by
  decide

/-- Claim C9 (amended): every required input that is empty at setup (lock
file path, settings file path, build directory, generator executable,
primary input path, output file name) makes `Init` fail, and the only file
I/O `Init` may have performed by then is reading the info file and stat'ing
the generator executable — no lock, settings, output or wrapper file I/O
happens before the abort. -/
theorem init_empty_inputs_fatal (info : Info) (ienv : InitEnv)
    (h : info.lockFile = "" ∨ info.settingsFile = "" ∨ info.buildDir = "" ∨
      info.rccExecutable = "" ∨ info.qrcFile = "" ∨ info.fileName = "") :
    (Init info ienv).1 = false ∧
      ∀ e ∈ (Init info ienv).2, e = InitEff.readInfoFile ∨ e = InitEff.statExe := by
  refine ⟨?_, init_tr_mem info ienv⟩
  cases hok : (Init info ienv).1
  · rfl
  · obtain ⟨h1, h2, h3, h4, h5, h6⟩ := init_ok_char info ienv hok
    rcases h with h | h | h | h | h | h <;> simp_all

/-- Witness for the amended C9: an empty settings-file path makes a concrete
`Init` fail with only manifest-read and executable-stat I/O. -/
theorem init_empty_inputs_fatal_witness :
    (Init infoNoSettings ienvB).1 = false ∧
      ∀ e ∈ (Init infoNoSettings ienvB).2,
        e = InitEff.readInfoFile ∨ e = InitEff.statExe :=
  init_empty_inputs_fatal infoNoSettings ienvB (Or.inr (Or.inl (by decide)))

/-- Claim C10: the rebuilt flag consumed by the wrapper step is set both by a
successful generator run and by the TouchOnly path — with identical wrapper
content in multi-configuration mode the wrapper's mtime is advanced after a
TouchOnly run (where no generator ran) just as after a rebuild (where one
did). -/
theorem rebuilt_flag_touches_wrapper (cfg : Cfg) (env : Env) :
    ((SettingsFileRead cfg env (initSt cfg)).ok = true →
      codeDecision env (postReadSt cfg env) = Decision.upToDate →
      env.rccTime.getD 0 < env.infoTime → env.touchOutputOk = true →
      cfg.MultiConfig_ = true → env.wrapperOld = some (wrapperContent cfg) →
      env.wrapperTouchOk = true →
      Eff.touchWrapper ∈ (Process cfg env).tr ∧
        Eff.runRcc ∉ (Process cfg env).tr) ∧
    ((SettingsFileRead cfg env (initSt cfg)).ok = true →
      codeDecision env (postReadSt cfg env) = Decision.rebuild →
      env.mkdirOk = true → env.rccLaunchOk = true → env.rccRetVal = 0 →
      cfg.MultiConfig_ = true → env.wrapperOld = some (wrapperContent cfg) →
      env.wrapperTouchOk = true →
      Eff.touchWrapper ∈ (Process cfg env).tr ∧
        Eff.runRcc ∈ (Process cfg env).tr) := by
  constructor
  · intro hok hdec ht htch hm hold hwt
    obtain ⟨hto, hw⟩ := process_upToDate_run cfg env hok hdec ht htch
    exact ⟨hw hm hold hwt, (process_touch cfg env hto).2.2⟩
  · intro hok hdec hmk hla hrv hm hold hwt
    obtain ⟨hrun, hw⟩ := process_rebuild_run cfg env hok hdec hmk hla hrv
    exact ⟨hw hm hold hwt, hrun⟩

/-- Witness for C10: concrete TouchOnly and rebuild runs both advance the
wrapper's mtime; the TouchOnly run invokes no generator, the rebuild does. -/
theorem rebuilt_flag_touches_wrapper_witness :
    (Eff.touchWrapper ∈
        (Process { cfgB with MultiConfig_ := true }
          { envB with
              settingsContent :=
                "rcc:" ++ settingsHashInput { cfgB with MultiConfig_ := true } ++ "\n",
              infoTime := 20,
              wrapperOld :=
                some (wrapperContent { cfgB with MultiConfig_ := true }) }).tr ∧
      Eff.runRcc ∉
        (Process { cfgB with MultiConfig_ := true }
          { envB with
              settingsContent :=
                "rcc:" ++ settingsHashInput { cfgB with MultiConfig_ := true } ++ "\n",
              infoTime := 20,
              wrapperOld :=
                some (wrapperContent { cfgB with MultiConfig_ := true }) }).tr) ∧
    (Eff.touchWrapper ∈
        (Process { cfgB with MultiConfig_ := true }
          { envB with
              wrapperOld :=
                some (wrapperContent { cfgB with MultiConfig_ := true }) }).tr ∧
      Eff.runRcc ∈
        (Process { cfgB with MultiConfig_ := true }
          { envB with
              wrapperOld :=
                some (wrapperContent { cfgB with MultiConfig_ := true }) }).tr) :=
  ⟨(rebuilt_flag_touches_wrapper { cfgB with MultiConfig_ := true }
      { envB with
          settingsContent :=
            "rcc:" ++ settingsHashInput { cfgB with MultiConfig_ := true } ++ "\n",
          infoTime := 20,
          wrapperOld := some (wrapperContent { cfgB with MultiConfig_ := true }) }).1
      (by decide) (by decide) (by decide) (by decide) (by decide) (by decide)
      (by decide),
    (rebuilt_flag_touches_wrapper { cfgB with MultiConfig_ := true }
      { envB with
          wrapperOld := some (wrapperContent { cfgB with MultiConfig_ := true }) }).2
      (by decide) (by decide) (by decide) (by decide) (by decide) (by decide)
      (by decide) (by decide)⟩

end CmQtAutoRcc
